import Mathlib

/-!
Verification development for the IWS Roll Call application
(source file src/src/App.js). The definitions below are a shallow
embedding of the retry/backoff write pipeline, the roster listener
callbacks, the bulk roster replacement, the CSV roster parser, the
scanner debounce callback, the scanner teardown, and the attendance
toggle handlers.
-/

namespace RollCall

/-- Attendee record, one remote roster document per person. Fields are the
ones written by seedRoster and executeRosterUpload and read by the toggle
handlers; lastScan is a nullable timestamp, modelled in resolved form as an
optional natural number of milliseconds. -/
structure Attendee where
  id : String
  name : String
  status : String
  lastScan : Option Nat
  deriving DecidableEq, Repr

/-- Timestamp-valued field exactly as it appears in a write payload: either
the null literal or the serverTimestamp sentinel. -/
inductive TsValue where
  | nullTs
  | serverTs
  deriving DecidableEq, Repr

/-- Outcome of one attempt of an operation passed to retryOperation: a
returned value, or a thrown error carrying its Firestore code string. -/
inductive Outcome (α : Type) where
  | ok (v : α)
  | fail (code : String)
  deriving DecidableEq, Repr

/-- Result of retryOperation: the returned value, a propagated error, or the
implicit undefined fall-through when maxRetries is zero. -/
inductive RetryResult (α : Type) where
  | ok (v : α)
  | thrown (code : String)
  | undef
  deriving DecidableEq, Repr

/-- Loop body of retryOperation (App.js lines 142-160), at attempt index i
with n+1 attempts remaining (so i is the last index exactly when n = 0).
A successful attempt returns its value. A failure whose code is
permission-denied or unavailable, or that occurs on the last attempt, takes
the retry branch: the last attempt rethrows, every other one sleeps
delay * 2 ^ i and continues; any other failure rethrows at once. The result
is paired with the list of sleeps performed, in order. -/
def retryAux {α : Type} (ops : Nat → Outcome α) (delay : Nat) :
    Nat → Nat → RetryResult α × List Nat
  | _, 0 => (.undef, [])
  | i, n + 1 =>
    match ops i with
    | .ok v => (.ok v, [])
    | .fail code =>
      if code == "permission-denied" || code == "unavailable" || n == 0 then
        if n == 0 then (.thrown code, [])
        else
          let rest := retryAux ops delay (i + 1) n
          (rest.1, delay * 2 ^ i :: rest.2)
      else (.thrown code, [])

/-- retryOperation (App.js lines 142-160), with the per-attempt behaviour of
the wrapped operation given as a function from attempt index to outcome. -/
def retryOperation {α : Type} (ops : Nat → Outcome α) (maxRetries delay : Nat) :
    RetryResult α × List Nat :=
  retryAux ops delay 0 maxRetries

/-- Scanner-callback state used by the debounce logic of onScanSuccess
(App.js lines 504-513 and 620-648), together with the list of accepted
decodes, i.e. the calls forwarded to handleScanSuccess with their accept
times. -/
structure ScanState where
  lastScanTime : Option Nat
  scanCount : Nat
  isPaused : Bool
  accepted : List (Nat × String)
  deriving DecidableEq, Repr

/-- Initial scanner state (App.js lines 504-513): lastScanTime null,
scanCount 0, not paused, nothing accepted yet. -/
def initScanState : ScanState := ⟨none, 0, false, []⟩

/-- Guard of onScanSuccess (App.js line 622): lastScanTime is truthy
(non-null and non-zero) and now minus lastScanTime is below 2000. Truncated
natural subtraction agrees with the JS comparison here: when now is at most
lastScanTime the JS difference is nonpositive and below 2000, and the
truncated difference 0 is below 2000 as well. -/
def isDuplicateScan (lastScanTime : Option Nat) (now : Nat) : Bool :=
  match lastScanTime with
  | none => false
  | some t => t != 0 && decide (now - t < 2000)

/-- onScanSuccess (App.js lines 620-648): a decode inside the debounce window
is ignored with no state change; otherwise the state records the accept time,
increments the scan counter, pauses, and forwards the payload to
handleScanSuccess (recorded in the accepted list). -/
def onScanSuccess (s : ScanState) (now : Nat) (decodedText : String) : ScanState :=
  if isDuplicateScan s.lastScanTime now then s
  else
    { s with
      lastScanTime := some now
      scanCount := s.scanCount + 1
      isPaused := true
      accepted := s.accepted ++ [(now, decodedText)] }

/-- Fold of onScanSuccess over a sequence of timed decode events. -/
def processScans (s : ScanState) : List (Nat × String) → ScanState
  | [] => s
  | (t, p) :: rest => processScans (onScanSuccess s t p) rest

/-- Status flip computed identically by handleScanSuccess (App.js line 1126)
and handleManualStatusToggle (App.js line 1162): present maps to absent and
any other value to present. -/
def toggledStatus (st : String) : String :=
  if st = "present" then "absent" else "present"

/-- Merge write issued by handleScanSuccess (App.js lines 1132-1135) applied
to the attendee document, with the serverTimestamp of lastScan resolved to
the server time now: only status and lastScan change. -/
def scanToggleUpdate (person : Attendee) (now : Nat) : Attendee :=
  { person with status := toggledStatus person.status, lastScan := some now }

/-- Merge write issued by handleManualStatusToggle (App.js lines 1168-1171)
applied to the attendee document, with the serverTimestamp of lastScan
resolved to the server time now: only status and lastScan change. -/
def manualToggleUpdate (person : Attendee) (now : Nat) : Attendee :=
  { person with status := toggledStatus person.status, lastScan := some now }

/-- Choice between the two toggle entry points: manual tap or scan. -/
def toggleVia (manual : Bool) (person : Attendee) (now : Nat) : Attendee :=
  if manual then manualToggleUpdate person now else scanToggleUpdate person now

/-- Message set by handleScanSuccess through setScanMessage. -/
inductive ScanMsg where
  | dbNotReady
  | notFound (scannedId : String)
  | success (name : String) (action : String)
  deriving DecidableEq, Repr

/-- Firestore write issued by handleScanSuccess: target document id, the
status field, the lastScan field and the merge flag. -/
structure ScanWrite where
  docId : String
  status : String
  lastScan : TsValue
  merge : Bool
  deriving DecidableEq, Repr

/-- handleScanSuccess (App.js lines 1108-1155) on its non-exception path,
returning the message set and the list of Firestore writes issued. A missing
db yields an error message and no write; a scanned id with no matching
attendee in the roster snapshot yields a not-found message and no write;
otherwise exactly one merge write of the flipped status with a fresh
serverTimestamp lastScan. -/
def handleScanSuccess (dbReady : Bool) (roster : List Attendee) (scannedId : String) :
    ScanMsg × List ScanWrite :=
  if !dbReady then (.dbNotReady, [])
  else
    match roster.find? (fun p => p.id == scannedId) with
    | none => (.notFound scannedId, [])
    | some person =>
      let newStatus := toggledStatus person.status
      let messageAction := if newStatus = "present" then "PRESENT" else "ABSENT"
      (.success person.name messageAction, [⟨scannedId, newStatus, .serverTs, true⟩])

/-- Document delivered by the roster snapshot listener: the document id and
the stored data. -/
structure SnapshotDoc where
  docId : String
  data : Attendee
  deriving DecidableEq, Repr

/-- Console output of the roster listener callbacks. -/
inductive LogEntry where
  | rosterUpdated (records : Nat)
  | listenerError (code : String)
  | transientPermissionWarn
  deriving DecidableEq, Repr

/-- Local state of the roster mirror: the current snapshot and the log. -/
structure MirrorState where
  roster : List Attendee
  logs : List LogEntry
  deriving DecidableEq, Repr

/-- Event delivered to the subscription: a change notification with the full
document list, or an error with its code string. -/
inductive FeedEvent where
  | change (docs : List SnapshotDoc)
  | feedError (code : String)
  deriving DecidableEq, Repr

/-- Mapping applied to each snapshot document (App.js lines 1082-1085): the
document data spread first, then the id field overridden by the document
id. -/
def docToAttendee (d : SnapshotDoc) : Attendee :=
  { d.data with id := d.docId }

/-- Subscription callbacks of the roster listener (App.js lines 1081-1096):
a change notification replaces the entire roster snapshot and logs the new
record count; the error callback only logs, with permission-denied treated as
a transient warning and every other code as a listener error, and in neither
case touches the roster. -/
def onRosterEvent (s : MirrorState) (e : FeedEvent) : MirrorState :=
  match e with
  | .change docs =>
    let updatedRoster := docs.map docToAttendee
    { roster := updatedRoster, logs := s.logs ++ [.rosterUpdated updatedRoster.length] }
  | .feedError code =>
    if code != "permission-denied" then
      { s with logs := s.logs ++ [.listenerError code] }
    else
      { s with logs := s.logs ++ [.transientPermissionWarn] }

/-- Validated roster entry consumed by the bulk upload: id and name. -/
structure Entry where
  id : String
  name : String
  deriving DecidableEq, Repr

/-- Field payload of a document creation in the bulk upload (App.js lines
277-283): id, name, status absent, lastScan null, createdAt
serverTimestamp. -/
structure CreateFields where
  id : String
  name : String
  status : String
  lastScan : TsValue
  createdAt : TsValue
  deriving DecidableEq, Repr

/-- Remote call issued by executeRosterUpload, in issue order. -/
inductive RemoteCall where
  | readAll
  | deleteDoc (id : String)
  | setDocCreate (id : String) (fields : CreateFields)
  deriving DecidableEq, Repr

/-- Final upload message set by executeRosterUpload. -/
inductive UploadMsg where
  | noMsg
  | errNoValidEntries
  | success (uploaded : Nat) (skipped : Nat)
  deriving DecidableEq, Repr

/-- executeRosterUpload (App.js lines 252-296) on its non-exception path,
returning the final message and the ordered list of remote calls. A missing
db returns silently with no call; an empty validated list reports the
validation error before any remote call; a declined confirmation returns
silently with no call; otherwise the existing documents are read, each
existing document is deleted, each new entry is created with status absent,
lastScan null and createdAt serverTimestamp, and the success message reports
the number of entries uploaded and the number of invalid lines skipped. -/
def executeRosterUpload (dbReady confirmed : Bool) (existingIds : List String)
    (dataToUpload : List Entry) (errorCount : Nat) : UploadMsg × List RemoteCall :=
  if !dbReady then (.noMsg, [])
  else if dataToUpload.length == 0 then (.errNoValidEntries, [])
  else if !confirmed then (.noMsg, [])
  else
    (.success dataToUpload.length errorCount,
      RemoteCall.readAll ::
        (existingIds.map RemoteCall.deleteDoc ++
          dataToUpload.map (fun p =>
            RemoteCall.setDocCreate p.id ⟨p.id, p.name, "absent", .nullTs, .serverTs⟩)))

/-- Whitespace test backing the JS trim calls and the regex whitespace
class, on the characters occurring in roster text. -/
def isWs (c : Char) : Bool :=
  c == ' ' || c == '\t' || c == '\n' || c == '\r'

/-- JS String.prototype.trim on a character list: leading and trailing
whitespace removed. -/
def jsTrim (s : List Char) : List Char :=
  ((s.dropWhile isWs).reverse.dropWhile isWs).reverse

/-- JS String.prototype.split with a single-character separator: the empty
string splits to one empty field, and each separator occurrence starts a new
field. -/
def splitOnChar (sep : Char) : List Char → List (List Char)
  | [] => [[]]
  | c :: cs =>
    let rest := splitOnChar sep cs
    if c == sep then [] :: rest
    else
      match rest with
      | [] => [[c]]
      | h :: t => (c :: h) :: t

/-- While loop of parseRosterData (App.js lines 232-234): pop trailing empty
fields while more than two parts remain. Fuel bounds the iteration count by
the initial length. -/
def popTrailingEmpties : Nat → List (List Char) → List (List Char)
  | 0, parts => parts
  | fuel + 1, parts =>
    if 2 < parts.length ∧ parts.getLast? = some [] then
      popTrailingEmpties fuel parts.dropLast
    else parts

/-- Regex replacement on the name field (App.js line 242): the first match of
one or more leading digits, an optional dot, and an optional single
whitespace character is removed; with no leading digit the regex does not
match and the name is unchanged. -/
def cleanLeadingNumber (name : List Char) : List Char :=
  match name with
  | [] => []
  | c :: _ =>
    if c.isDigit then
      let afterDigits := name.dropWhile Char.isDigit
      let afterDot :=
        match afterDigits with
        | '.' :: rest => rest
        | other => other
      match afterDot with
      | w :: rest => if isWs w then rest else afterDot
      | [] => []
    else name

/-- Output of parseRosterData: the valid entries and the error count. -/
structure ParsedRoster where
  rosterData : List Entry
  errorCount : Nat
  deriving DecidableEq, Repr

/-- Per-line step of parseRosterData (App.js lines 224-248): split the line
on commas, trim every part, pop trailing empty parts down to two, and either
accept the first two parts as id and cleaned name when both are non-empty, or
count a non-blank line as an error. -/
def parseLine (acc : ParsedRoster) (line : List Char) : ParsedRoster :=
  let parts0 := splitOnChar ',' line
  let parts1 := parts0.map jsTrim
  let parts := popTrailingEmpties parts1.length parts1
  if 2 ≤ parts.length ∧ parts.getD 0 [] ≠ [] ∧ parts.getD 1 [] ≠ [] then
    let pid := parts.getD 0 []
    let pname := jsTrim (cleanLeadingNumber (parts.getD 1 []))
    { acc with rosterData := acc.rosterData ++ [⟨String.mk pid, String.mk pname⟩] }
  else if jsTrim line ≠ [] then
    { acc with errorCount := acc.errorCount + 1 }
  else acc

/-- parseRosterData (App.js lines 219-250): trim the text, split it into
lines, and fold the per-line step over them. -/
def parseRosterData (text : String) : ParsedRoster :=
  (splitOnChar '\n' (jsTrim text.data)).foldl parseLine ⟨[], 0⟩

/-- Scanner session state seen by stopScanner: whether a scanner instance is
attached to the ref, whether the underlying library decode loop is scanning,
and the React state flags (App.js lines 500-513). -/
structure ScannerState where
  refPresent : Bool
  isScanning : Bool
  isInitializing : Bool
  isRunning : Bool
  isPaused : Bool
  flashOn : Bool
  deriving DecidableEq, Repr

/-- stopScanner (App.js lines 535-551): only when a scanner instance is
attached, the session state records isRunning, and the library loop reports
isScanning does it stop the loop and clear the running, initializing, paused
and flash flags; in every other state it does nothing. -/
def stopScanner (s : ScannerState) : ScannerState :=
  if s.refPresent && s.isRunning then
    if s.isScanning then
      { s with
        isScanning := false
        isRunning := false
        isInitializing := false
        isPaused := false
        flashOn := false }
    else s
  else s

/-- Helper: a decode arriving in the initial state (lastScanTime null) is
accepted. -/
theorem onScanSuccess_init (now : Nat) (p : String) :
    onScanSuccess initScanState now p = ⟨some now, 1, true, [(now, p)]⟩ := rfl

/-- Helper: a decode inside the 2000ms window after the recorded last scan is
ignored with no state change. -/
theorem onScanSuccess_dup (s : ScanState) (last now : Nat) (p : String)
    (hl : s.lastScanTime = some last) (h0 : 0 < last) (hw : now - last < 2000) :
    onScanSuccess s now p = s := by
  have hd : isDuplicateScan s.lastScanTime now = true := by
    rw [hl]
    simp only [isDuplicateScan, Bool.and_eq_true, bne_iff_ne, ne_eq, decide_eq_true_eq]
    omega
  simp [onScanSuccess, hd]

/-- Helper: a decode at least 2000ms after the recorded last scan is
accepted. -/
theorem onScanSuccess_accept (s : ScanState) (last now : Nat) (p : String)
    (hl : s.lastScanTime = some last) (hw : 2000 ≤ now - last) :
    onScanSuccess s now p =
      { s with
        lastScanTime := some now
        scanCount := s.scanCount + 1
        isPaused := true
        accepted := s.accepted ++ [(now, p)] } := by
  have hd : isDuplicateScan s.lastScanTime now = false := by
    rw [hl]
    simp only [isDuplicateScan, Bool.and_eq_false_iff, bne_eq_false_iff_eq, decide_eq_false_iff_not, not_lt]
    omega
  simp [onScanSuccess, hd]

/-- Helper: the status flip of the toggle handlers is an involution on the
two legal status values. -/
theorem toggledStatus_involutive (st : String)
    (h : st = "present" ∨ st = "absent") :
    toggledStatus (toggledStatus st) = st := by
  rcases h with h | h <;> subst h <;> rfl

/-- Helper: the status flip never fixes a legal status value. -/
theorem toggledStatus_ne (st : String) (h : st = "present" ∨ st = "absent") :
    toggledStatus st ≠ st := by
  rcases h with h | h <;> subst h <;> decide

/-- C1: toggling an attendee twice, by any combination of the scan handler
and the manual handler, returns the status to its original value, and each
toggle writes the fresh timestamp of its own write; with the previous
lastScan before the first toggle time and the first toggle time before the
second, lastScan strictly increases at both toggles. -/
theorem C1_toggle_involution (p : Attendee) (b1 b2 : Bool) (t1 t2 : Nat)
    (hstatus : p.status = "present" ∨ p.status = "absent")
    (hprev : ∀ u, p.lastScan = some u → u < t1) (ht : t1 < t2) :
    (toggleVia b2 (toggleVia b1 p t1) t2).status = p.status ∧
    (toggleVia b1 p t1).status ≠ p.status ∧
    (toggleVia b1 p t1).lastScan = some t1 ∧
    (toggleVia b2 (toggleVia b1 p t1) t2).lastScan = some t2 ∧
    (∀ u, p.lastScan = some u → u < t1) ∧ t1 < t2 := by
  cases b1 <;> cases b2 <;>
    exact ⟨toggledStatus_involutive p.status hstatus, toggledStatus_ne p.status hstatus,
      rfl, rfl, hprev, ht⟩

/-- C1 witness at a concrete attendee: scan toggle at time 100 then manual
toggle at time 200 restores the absent status and stamps both times. -/
theorem C1_toggle_involution_witness :
    (toggleVia true (toggleVia false ⟨"RC-1001", "Alfie Johnson", "absent", some 10⟩ 100) 200).status
        = "absent" ∧
    (toggleVia false ⟨"RC-1001", "Alfie Johnson", "absent", some 10⟩ 100).status ≠ "absent" ∧
    (toggleVia false ⟨"RC-1001", "Alfie Johnson", "absent", some 10⟩ 100).lastScan = some 100 ∧
    (toggleVia true (toggleVia false ⟨"RC-1001", "Alfie Johnson", "absent", some 10⟩ 100) 200).lastScan
        = some 200 :=
  have h :=
    C1_toggle_involution ⟨"RC-1001", "Alfie Johnson", "absent", some 10⟩ false true 100 200
      (Or.inr rfl) (fun u hu => by simp only [Option.some.injEq] at hu; omega) (by omega)
  ⟨h.1, h.2.1, h.2.2.1, h.2.2.2.1⟩

/-- C2: a decode strictly inside the 2000ms window after the previously
accepted decode is silently discarded with no state change, one at 2000ms or
later is accepted and records the new last-scan time, and consequently two
decodes of the same payload from a fresh session produce exactly one accepted
mutation when separated by less than 2000ms and exactly two when separated by
at least 2000ms. -/
theorem C2_debounce (s : ScanState) (last now t1 t2 : Nat) (p : String)
    (hlast : s.lastScanTime = some last) (hpos : 0 < last) (ht1 : 0 < t1) :
    (now - last < 2000 → onScanSuccess s now p = s) ∧
    (2000 ≤ now - last →
      (onScanSuccess s now p).lastScanTime = some now ∧
      (onScanSuccess s now p).accepted = s.accepted ++ [(now, p)]) ∧
    (t2 - t1 < 2000 →
      (processScans initScanState [(t1, p), (t2, p)]).accepted = [(t1, p)]) ∧
    (2000 ≤ t2 - t1 →
      (processScans initScanState [(t1, p), (t2, p)]).accepted = [(t1, p), (t2, p)]) := by
  refine ⟨fun h => onScanSuccess_dup s last now p hlast hpos h,
    fun h => by rw [onScanSuccess_accept s last now p hlast h]; exact ⟨rfl, rfl⟩,
    fun h => ?_, fun h => ?_⟩
  · show (onScanSuccess (onScanSuccess initScanState t1 p) t2 p).accepted = [(t1, p)]
    rw [onScanSuccess_init, onScanSuccess_dup ⟨some t1, 1, true, [(t1, p)]⟩ t1 t2 p rfl ht1 h]
  · show (onScanSuccess (onScanSuccess initScanState t1 p) t2 p).accepted = [(t1, p), (t2, p)]
    rw [onScanSuccess_init, onScanSuccess_accept ⟨some t1, 1, true, [(t1, p)]⟩ t1 t2 p rfl h]
    rfl

/-- C2 witness at concrete times: with the last accepted scan at 1000, a
decode at 3500 is accepted, and a fresh session scanning at 1000 then 4000
accepts both events. -/
theorem C2_debounce_witness :
    (3500 - 1000 < 2000 →
      onScanSuccess ⟨some 1000, 1, true, [(1000, "RC-1001")]⟩ 3500 "RC-1001"
        = ⟨some 1000, 1, true, [(1000, "RC-1001")]⟩) ∧
    (2000 ≤ 3500 - 1000 →
      (onScanSuccess ⟨some 1000, 1, true, [(1000, "RC-1001")]⟩ 3500 "RC-1001").lastScanTime
          = some 3500 ∧
      (onScanSuccess ⟨some 1000, 1, true, [(1000, "RC-1001")]⟩ 3500 "RC-1001").accepted
          = [(1000, "RC-1001")] ++ [(3500, "RC-1001")]) ∧
    (4000 - 1000 < 2000 →
      (processScans initScanState [(1000, "RC-1001"), (4000, "RC-1001")]).accepted
          = [(1000, "RC-1001")]) ∧
    (2000 ≤ 4000 - 1000 →
      (processScans initScanState [(1000, "RC-1001"), (4000, "RC-1001")]).accepted
          = [(1000, "RC-1001"), (4000, "RC-1001")]) :=
  C2_debounce ⟨some 1000, 1, true, [(1000, "RC-1001")]⟩ 1000 3500 1000 4000 "RC-1001"
    rfl (by omega) (by omega)

/-- C3: when the wrapped operation throws a transient code (permission-denied
or unavailable) on the first two attempts and succeeds on the third, and at
least three attempts are allowed, retryOperation returns the third attempt
value and sleeps exactly delay then delay times two between attempts, with no
jitter. -/
theorem C3_retry_backoff {α : Type} (ops : Nat → Outcome α) (maxRetries delay : Nat)
    (v : α) (c0 c1 : String)
    (h0 : ops 0 = .fail c0) (h1 : ops 1 = .fail c1)
    (hc0 : c0 = "permission-denied" ∨ c0 = "unavailable")
    (hc1 : c1 = "permission-denied" ∨ c1 = "unavailable")
    (h2 : ops 2 = .ok v) (hm : 3 ≤ maxRetries) :
    retryOperation ops maxRetries delay = (.ok v, [delay, delay * 2]) := by
  obtain ⟨k, rfl⟩ : ∃ k, maxRetries = k + 3 := ⟨maxRetries - 3, by omega⟩
  rcases hc0 with rfl | rfl <;> rcases hc1 with rfl | rfl <;>
    simp [retryOperation, retryAux, h0, h1, h2, pow_succ]

/-- C3 witness: an operation failing with unavailable then permission-denied
then returning 42, run with three attempts and base delay 500, returns 42
after sleeping 500 then 1000. -/
theorem C3_retry_backoff_witness :
    retryOperation
        (fun i => if i = 0 then Outcome.fail "unavailable"
          else if i = 1 then Outcome.fail "permission-denied" else Outcome.ok 42)
        3 500 = (.ok 42, [500, 1000]) :=
  C3_retry_backoff
    (fun i => if i = 0 then Outcome.fail "unavailable"
      else if i = 1 then Outcome.fail "permission-denied" else Outcome.ok 42)
    3 500 42 "unavailable" "permission-denied" rfl rfl (Or.inr rfl) (Or.inl rfl) rfl
    (by omega)

/-- C4: every error delivered to the roster listener error callback,
permission-denied included, leaves the roster snapshot unchanged, and only a
change notification replaces the snapshot, with the whole document list. -/
theorem C4_mirror_error_keeps_snapshot (s : MirrorState) (code : String)
    (docs : List SnapshotDoc) :
    (onRosterEvent s (.feedError code)).roster = s.roster ∧
    (onRosterEvent s (.change docs)).roster = docs.map docToAttendee := by
  refine ⟨?_, rfl⟩
  by_cases h : code = "permission-denied" <;> simp [onRosterEvent, h]

/-- C5: a bulk replacement with a non-empty validated list, db ready and the
destructive intent confirmed, first reads all existing roster documents, then
deletes each existing document, then creates each new entry with status
absent, lastScan null and createdAt serverTimestamp, in that order, and
reports the count of entries created. -/
theorem C5_bulk_replace_trace (existingIds : List String) (entries : List Entry)
    (errorCount : Nat) (h : entries ≠ []) :
    executeRosterUpload true true existingIds entries errorCount =
      (.success entries.length errorCount,
        RemoteCall.readAll ::
          (existingIds.map RemoteCall.deleteDoc ++
            entries.map fun p =>
              RemoteCall.setDocCreate p.id ⟨p.id, p.name, "absent", .nullTs, .serverTs⟩)) := by
  cases entries with
  | nil => exact absurd rfl h
  | cons e es => rfl

/-- C5 witness: replacing one existing document with one new entry issues the
read, the delete and the create in order and reports one entry created. -/
theorem C5_bulk_replace_trace_witness :
    executeRosterUpload true true ["RC-0001"] [⟨"P1", "John Doe"⟩] 2 =
      (.success 1 2,
        [RemoteCall.readAll, RemoteCall.deleteDoc "RC-0001",
          RemoteCall.setDocCreate "P1" ⟨"P1", "John Doe", "absent", .nullTs, .serverTs⟩]) :=
  C5_bulk_replace_trace ["RC-0001"] [⟨"P1", "John Doe"⟩] 2 (by simp)

/-- C6: a bulk replacement invoked with an empty validated list reports the
validation error message immediately and issues zero remote calls, whatever
the existing documents and the confirmation answer. -/
theorem C6_empty_upload_no_calls (confirmed : Bool) (existingIds : List String)
    (errorCount : Nat) :
    executeRosterUpload true confirmed existingIds [] errorCount =
      (.errNoValidEntries, []) := rfl

/-- C7: a scanned payload matching no attendee id in the roster snapshot
makes handleScanSuccess report a not-found outcome and issue zero writes. -/
theorem C7_scan_not_found (roster : List Attendee) (scannedId : String)
    (h : roster.find? (fun p => p.id == scannedId) = none) :
    handleScanSuccess true roster scannedId = (.notFound scannedId, []) := by
  simp [handleScanSuccess, h]

/-- C7 witness: scanning RC-9999 against a one-person roster holding RC-1001
reports not-found with no write. -/
theorem C7_scan_not_found_witness :
    handleScanSuccess true [⟨"RC-1001", "Alfie Johnson", "absent", none⟩] "RC-9999"
      = (.notFound "RC-9999", []) :=
  C7_scan_not_found [⟨"RC-1001", "Alfie Johnson", "absent", none⟩] "RC-9999" (by decide)

/-- C8: parseRosterData on the specified three-line input yields exactly the
two valid entries with trailing empty comma fields stripped and exactly one
error line, and a leading numeric prefix of the form digits-dot on a name
field is stripped by the name normalization. -/
theorem C8_parse_roster_example :
    parseRosterData "RC-1001,Alfie Johnson\n,,\nRC-1002,Jane Smith,," =
      ⟨[⟨"RC-1001", "Alfie Johnson"⟩, ⟨"RC-1002", "Jane Smith"⟩], 1⟩ ∧
    String.mk (jsTrim (cleanLeadingNumber "1.Dean Owens".data)) = "Dean Owens" := by
  decide

/-- C9 counterexample: in the mid-initialization state where a scanner
instance is attached and the library loop is scanning but the session state
does not record isRunning, stopScanner changes nothing and the decode loop is
still scanning afterwards, so teardown does not stop the loop unconditionally
from every state. -/
theorem C9_stopScanner_counterexample :
    stopScanner ⟨true, true, true, false, false, false⟩
        = ⟨true, true, true, false, false, false⟩ ∧
    (stopScanner ⟨true, true, true, false, false, false⟩).isScanning = true := by
  decide

/-- C9 amended: stopScanner stops the decode loop exactly from the states
where a scanner instance is attached, the session state records isRunning and
the loop is scanning; it is idempotent there, a second invocation being a
no-op that leaves the loop stopped; and from any state not recording
isRunning it performs no action at all. -/
theorem C9_stopScanner_amended (s t : ScannerState)
    (h1 : s.refPresent = true) (h2 : s.isRunning = true) (h3 : s.isScanning = true)
    (h4 : t.isRunning = false) :
    (stopScanner s).isScanning = false ∧
    stopScanner (stopScanner s) = stopScanner s ∧
    stopScanner t = t := by
  refine ⟨?_, ?_, ?_⟩
  · simp [stopScanner, h1, h2, h3]
  · simp [stopScanner, h1, h2, h3]
  · simp [stopScanner, h4]

/-- C9 amended witness: stopping a running, scanning, paused session stops
the loop and a second stop is a no-op, and stopping a session whose state
does not record isRunning changes nothing. -/
theorem C9_stopScanner_amended_witness :
    (stopScanner ⟨true, true, false, true, true, false⟩).isScanning = false ∧
    stopScanner (stopScanner ⟨true, true, false, true, true, false⟩)
        = stopScanner ⟨true, true, false, true, true, false⟩ ∧
    stopScanner ⟨true, false, false, false, false, false⟩
        = ⟨true, false, false, false, false, false⟩ :=
  C9_stopScanner_amended ⟨true, true, false, true, true, false⟩
    ⟨true, false, false, false, false, false⟩ rfl rfl rfl rfl

/-- C10: the debounce is payload-agnostic: a decode arriving strictly inside
the 2000ms window after the previously accepted decode is discarded whatever
its payload, so a fresh session scanning one payload and then a different one
within 2000ms ends in exactly the state reached by the first scan alone. -/
theorem C10_payload_agnostic (s : ScanState) (last now t1 t2 : Nat) (p q : String)
    (hlast : s.lastScanTime = some last) (hpos : 0 < last) (hwin : now - last < 2000)
    (ht1 : 0 < t1) (hwin2 : t2 - t1 < 2000) :
    onScanSuccess s now q = s ∧
    processScans initScanState [(t1, p), (t2, q)] = processScans initScanState [(t1, p)] := by
  refine ⟨onScanSuccess_dup s last now q hlast hpos hwin, ?_⟩
  show onScanSuccess (onScanSuccess initScanState t1 p) t2 q
      = onScanSuccess initScanState t1 p
  rw [onScanSuccess_init]
  exact onScanSuccess_dup ⟨some t1, 1, true, [(t1, p)]⟩ t1 t2 q rfl ht1 hwin2

/-- C10 witness: after an accepted scan of RC-1001 at time 1000, a scan of
the different payload RC-1002 at time 1500 is discarded. -/
theorem C10_payload_agnostic_witness :
    onScanSuccess ⟨some 1000, 1, true, [(1000, "RC-1001")]⟩ 1500 "RC-1002"
        = ⟨some 1000, 1, true, [(1000, "RC-1001")]⟩ ∧
    processScans initScanState [(1000, "RC-1001"), (1500, "RC-1002")]
        = processScans initScanState [(1000, "RC-1001")] :=
  C10_payload_agnostic ⟨some 1000, 1, true, [(1000, "RC-1001")]⟩ 1000 1500 1000 1500
    "RC-1001" "RC-1002" rfl (by omega) (by omega) (by omega) (by omega)

end RollCall
